import Mathlib

/-!
Verification development for the steampipe-plugin-azuread core
(samikroy/steampipe-plugin-azuread).

Shallow embedding of:
  * the credential resolver and session/client cache
    (`azuread/service.go`: `GetNewSession`, `getApplicableAuthorizationDetails`,
    `getTenantFromCLI`, `GetGraphClient`, plus the older variant of
    `GetNewSession`/`getApplicableAuthorizationDetails` found in the
    unnamed source file `part_001`),
  * the directory-audit query filter builder
    (`buildDirectoryAuditQueryFilter` and the `activity_date_time`
    qual translation in `listAdDirectoryAuditReports`, `part_001`),
  * the paged-iteration visitor callback (`part_001` / `part_002`)
    driven by a page iterator,
  * the error classifier (`getErrorObject` / `isIgnorableErrorPredicate`,
    `part_000`).

External collaborators (Go standard library, Azure SDKs, the steampipe
plugin SDK cache and the msgraph page iterator) are modelled explicitly
where the claims depend on them; each such modelling choice is documented
on the definition.
-/

/-! ## Configuration and environment -/

/-- Merged connection configuration (`azureADConfig`): every field is a
pointer in Go, hence `Option` here; `none` means "not set in the config
file", in which case the code falls back to an environment variable. -/
structure AzureADConfig where
  TenantID : Option String
  ClientID : Option String
  ClientSecret : Option String
  CertificatePath : Option String
  CertificatePassword : Option String
  Environment : Option String
  EnableMsi : Option Bool
  MsiEndpoint : Option String
deriving DecidableEq

/-- The `AZURE_*` process environment variables read with `os.Getenv`;
Go's `os.Getenv` returns `""` for an unset variable, so plain strings. -/
structure Env where
  azureTenantId : String
  azureEnvironment : String
  azureClientId : String
  azureClientSecret : String
  azureCertificatePath : String
  azureCertificatePassword : String
deriving DecidableEq

/-- Resolution of one config field: `if config.X != nil { x = *config.X }
else { x = os.Getenv("AZURE_X") }`. -/
def resolveField (field : Option String) (envVal : String) : String :=
  match field with
  | some v => v
  | none => envVal

def resolvedTenantID (cfg : AzureADConfig) (env : Env) : String :=
  resolveField cfg.TenantID env.azureTenantId

def resolvedEnvironment (cfg : AzureADConfig) (env : Env) : String :=
  resolveField cfg.Environment env.azureEnvironment

def resolvedClientID (cfg : AzureADConfig) (env : Env) : String :=
  resolveField cfg.ClientID env.azureClientId

def resolvedClientSecret (cfg : AzureADConfig) (env : Env) : String :=
  resolveField cfg.ClientSecret env.azureClientSecret

def resolvedCertificatePath (cfg : AzureADConfig) (env : Env) : String :=
  resolveField cfg.CertificatePath env.azureCertificatePath

def resolvedCertificatePassword (cfg : AzureADConfig) (env : Env) : String :=
  resolveField cfg.CertificatePassword env.azureCertificatePassword

/-- `enableMsi` is only assigned when `config.EnableMsi != nil`; the Go
zero value of `bool` is `false`. -/
def resolvedEnableMsi (cfg : AzureADConfig) : Bool :=
  match cfg.EnableMsi with
  | some b => b
  | none => false

/-- Default MSI endpoint, overridden only inside the
`config.EnableMsi != nil` block when `config.MsiEndpoint != nil`. -/
def resolvedMsiEndpoint (cfg : AzureADConfig) : String :=
  match cfg.EnableMsi, cfg.MsiEndpoint with
  | some _, some e => e
  | _, _ => "http://169.254.169.254/metadata/identity/oauth2/token"

/-- The hamilton cloud environment chosen by the `switch environment`
statement; the four `environments.*` values are represented by tags. -/
def hamiltonEnvironment (environment : String) : String :=
  match environment with
  | "AZURECHINACLOUD" => "China"
  | "AZUREUSGOVERNMENTCLOUD" => "USGovernmentL4"
  | "AZUREGERMANCLOUD" => "Germany"
  | _ => "Global"

/-! ## Auth configuration and sessions -/

/-- The fields of hamilton's `auth.Config` that the resolver assigns.
Defaults are the Go zero values of the struct. -/
structure AuthConfig where
  Environment : String := "Global"
  TenantID : String := ""
  ClientID : String := ""
  ClientSecret : String := ""
  ClientCertPath : String := ""
  ClientCertPassword : String := ""
  MsiEndpoint : String := ""
  EnableAzureCliToken : Bool := false
  EnableClientSecretAuth : Bool := false
  EnableClientCertAuth : Bool := false
  EnableMsiAuth : Bool := false
deriving DecidableEq

/-- The opaque authorizer capability produced by
`authConfig.NewAuthorizer(ctx, auth.MsGraph)`: an external constructor,
modelled as an injective wrapper around the auth configuration it was
built from (its token-acquisition behaviour is outside this core). -/
structure Authorizer where
  builtFrom : AuthConfig
deriving DecidableEq

/-- `Session` from `service.go`. -/
structure Session where
  TenantID : String
  Authorizer : Authorizer
deriving DecidableEq

/-- Outcome of `getTenantFromCLI()` (an external `az` process invocation),
passed to `GetNewSession` as an oracle. -/
inductive CliResult where
  | ok (tenant : String)
  | err (msg : String)
deriving DecidableEq

/-- Go-style `(sess *Session, err error)` return value. -/
inductive SessionResult where
  | ok (s : Session)
  | err (msg : String)
deriving DecidableEq

/-! ## The credential resolver of `service.go` -/

/-- `getApplicableAuthorizationDetails` from `azuread/service.go`
(lines 86-192).  Returns `(authMethod, authConfig, err)`; the Go function
declares a named `err` result and never assigns it, so the error component
is always `none` here, mirroring the source.  The if/else chain is the
source's: an empty tenant selects CLI unconditionally; the client-secret
tier needs tenant, client id and secret; the certificate tier needs
tenant, client id, certificate path AND certificate password; then MSI;
otherwise the method stays at its default `"CLI"` with no auth flag
enabled. -/
def getApplicableAuthorizationDetails (cfg : AzureADConfig) (env : Env) :
    String × AuthConfig × Option String :=
  let tenantID := resolvedTenantID cfg env
  let clientID := resolvedClientID cfg env
  let clientSecret := resolvedClientSecret cfg env
  let certificatePath := resolvedCertificatePath cfg env
  let certificatePassword := resolvedCertificatePassword cfg env
  let enableMsi := resolvedEnableMsi cfg
  let msiEndpoint := resolvedMsiEndpoint cfg
  let base : AuthConfig :=
    { Environment := hamiltonEnvironment (resolvedEnvironment cfg env) }
  if tenantID = "" then
    ("CLI", { base with EnableAzureCliToken := true }, none)
  else if tenantID ≠ "" ∧ clientID ≠ "" ∧ clientSecret ≠ "" then
    ("EnableClientSecretAuth",
      { base with
        TenantID := tenantID
        ClientID := clientID
        ClientSecret := clientSecret
        EnableClientSecretAuth := true }, none)
  else if tenantID ≠ "" ∧ clientID ≠ "" ∧ certificatePath ≠ "" ∧ certificatePassword ≠ "" then
    ("EnableClientCertificateAuth",
      { base with
        TenantID := tenantID
        ClientID := clientID
        ClientCertPath := certificatePath
        ClientCertPassword := certificatePassword
        EnableClientCertAuth := true }, none)
  else if enableMsi then
    ("EnableMsiAuth",
      { base with
        EnableMsiAuth := true
        MsiEndpoint := msiEndpoint
        TenantID := tenantID
        ClientID := clientID }, none)
  else
    ("CLI", base, none)

/-! ## Graph client types (`GetGraphClient`) -/

/-- The `azcore.TokenCredential` selected by `GetGraphClient`'s if/else
chain; each constructor records the data the corresponding `azidentity`
constructor receives (the constructors themselves are external).  The
certificate constructor carries the parse result of the certificate file
(`certsKey`, standing for the `certs`/`key` pair). -/
inductive Credential where
  | azureCLI
  | clientSecretCred (tenantID clientID clientSecret cloudConfiguration : String)
  | clientCertificate (tenantID clientID certsKey cloudConfiguration : String)
  | managedIdentity
deriving DecidableEq

/-- `msgraphsdkgo.GraphRequestAdapter`, modelled by the credential the
authentication provider wraps (`none` when the if/else chain assigned no
credential and `cred` stayed `nil`). -/
structure GraphRequestAdapter where
  cred : Option Credential
deriving DecidableEq

/-- `msgraphsdkgo.GraphServiceClient`, built from its request adapter. -/
structure GraphServiceClient where
  adapter : GraphRequestAdapter
deriving DecidableEq

/-! ## The session / client cache -/

/-- The values the hosting connection cache stores in this plugin:
`*Session` (keys `"GetNewSession"` / `"authMethod"`) and
`*msgraphsdkgo.GraphServiceClient` (key `"GetGraphClient"`). -/
inductive CacheValue where
  | session (s : Session)
  | client (c : GraphServiceClient)
deriving DecidableEq

/-- The steampipe `ConnectionManager.Cache`, modelled as an association
list; `Set` overwrites by prepending, `Get` returns the newest entry. -/
def Cache := List (String × CacheValue)

instance : DecidableEq Cache := by
  unfold Cache
  infer_instance

def cacheGet : Cache → String → Option CacheValue
  | [], _ => none
  | (k, v) :: rest, key => if k = key then some v else cacheGet rest key

def cacheSet (c : Cache) (k : String) (v : CacheValue) : Cache :=
  (k, v) :: c

/-- `GetNewSession` from `azuread/service.go` (lines 40-84): look up the
fixed key `"GetNewSession"`; on a hit return the cached session (Go's
`cachedData.(*Session)` type assertion would panic on a non-session value,
modelled as an error result — the program only ever stores sessions under
this key); on a miss run the resolver, build the authorizer
(`NewAuthorizer` is external and modelled as the pure `Authorizer.mk`; its
`log.Fatal` error path aborts the process and is not modelled), consult
the CLI helper when the method is `"CLI"`, store the session and return
it. -/
def GetNewSession (cfg : AzureADConfig) (env : Env) (cliTenant : CliResult)
    (cache : Cache) : SessionResult × Cache :=
  match cacheGet cache "GetNewSession" with
  | some (CacheValue.session s) => (SessionResult.ok s, cache)
  | some _ => (SessionResult.err "cached value is not a Session", cache)
  | none =>
    match getApplicableAuthorizationDetails cfg env with
    | (_, _, some e) => (SessionResult.err e, cache)
    | (authMethod, authConfig, none) =>
      let tenantID := if authConfig.TenantID ≠ "" then authConfig.TenantID else ""
      let authorizer : Authorizer := ⟨authConfig⟩
      if authMethod = "CLI" then
        match cliTenant with
        | CliResult.err e => (SessionResult.err e, cache)
        | CliResult.ok t =>
          let sess : Session := ⟨t, authorizer⟩
          (SessionResult.ok sess, cacheSet cache "GetNewSession" (CacheValue.session sess))
      else
        let sess : Session := ⟨tenantID, authorizer⟩
        (SessionResult.ok sess, cacheSet cache "GetNewSession" (CacheValue.session sess))

/-- Result of `os.ReadFile` on the certificate path (external file
system), passed to `GetGraphClient` as an oracle. -/
inductive FileRead where
  | ok (data : String)
  | err (msg : String)
deriving DecidableEq

/-- Result of `azidentity.ParseCertificates(data, password)` (external),
passed to `GetGraphClient` as an oracle; `ok` carries the abstract
`certs`/`key` pair. -/
inductive ParseResult where
  | ok (certsKey : String)
  | err (msg : String)
deriving DecidableEq

/-- The `cloud.Configuration` chosen by `GetGraphClient`'s
`switch environment` (tags for `cloud.AzureChina` / `cloud.AzureGovernment`
/ `cloud.AzurePublic`). -/
def cloudConfigurationOf (environment : String) : String :=
  match environment with
  | "AZURECHINACLOUD" => "AzureChina"
  | "AZUREUSGOVERNMENTCLOUD" => "AzureGovernment"
  | _ => "AzurePublic"

/-- `GetGraphClient` from `azuread/service.go` (lines 242-385).

Cache: look up the fixed key `"GetGraphClient"`; on a hit return
`(cachedData.(*GraphServiceClient), nil, nil)` — note the `nil` request
adapter, exactly as in the source (line 248); the type assertion would
panic on a non-client value, modelled as an error result (the program only
stores clients under this key).

Miss: resolve the config fields (same config-or-environment fallback as
the resolver), then the credential if/else chain of the source: empty
tenant → Azure CLI credential; tenant+clientID+clientSecret → client
secret credential; tenant+clientID+certificatePath → certificate
credential, reading the file (`readFile` oracle) and parsing it with
`nil` password when the password is empty (`parseCertificates` oracle),
returning the source's error strings when either fails; `enableMsi` →
managed-identity credential; otherwise `cred` stays `nil`.  The external
`azidentity`/kiota constructors and `NewGraphRequestAdapter` are modelled
as pure (their own error returns are not modelled); the adapter wraps the
selected credential and the client wraps the adapter, which is then
stored under the key. -/
def GetGraphClient (cfg : AzureADConfig) (env : Env)
    (readFile : String → FileRead)
    (parseCertificates : String → Option String → ParseResult)
    (cache : Cache) :
    (Option GraphServiceClient × Option GraphRequestAdapter × Option String) × Cache :=
  match cacheGet cache "GetGraphClient" with
  | some (CacheValue.client c) => ((some c, none, none), cache)
  | some _ => ((none, none, some "cached value is not a GraphServiceClient"), cache)
  | none =>
    let tenantID := resolvedTenantID cfg env
    let environment := resolvedEnvironment cfg env
    let enableMsi := resolvedEnableMsi cfg
    let clientID := resolvedClientID cfg env
    let clientSecret := resolvedClientSecret cfg env
    let certificatePath := resolvedCertificatePath cfg env
    let certificatePassword := resolvedCertificatePassword cfg env
    let cloudConfiguration := cloudConfigurationOf environment
    let credResult : Sum (Option Credential) String :=
      if tenantID = "" then
        Sum.inl (some Credential.azureCLI)
      else if tenantID ≠ "" ∧ clientID ≠ "" ∧ clientSecret ≠ "" then
        Sum.inl (some (Credential.clientSecretCred tenantID clientID clientSecret cloudConfiguration))
      else if tenantID ≠ "" ∧ clientID ≠ "" ∧ certificatePath ≠ "" then
        match readFile certificatePath with
        | FileRead.err _ =>
          Sum.inr ("error reading certificate from " ++ certificatePath)
        | FileRead.ok loadFile =>
          match parseCertificates loadFile
              (if certificatePassword = "" then none else some certificatePassword) with
          | ParseResult.err _ =>
            Sum.inr ("error parsing certificate from " ++ certificatePath)
          | ParseResult.ok certsKey =>
            Sum.inl (some (Credential.clientCertificate tenantID clientID certsKey cloudConfiguration))
      else if enableMsi then
        Sum.inl (some Credential.managedIdentity)
      else
        Sum.inl none
    match credResult with
    | Sum.inr e => ((none, none, some e), cache)
    | Sum.inl cred =>
      let adapter : GraphRequestAdapter := ⟨cred⟩
      let client : GraphServiceClient := ⟨adapter⟩
      ((some client, some adapter, none),
        cacheSet cache "GetGraphClient" (CacheValue.client client))

/-! ## The older variant in the unnamed file `part_001` -/

namespace Part001

/-- `getApplicableAuthorizationDetails` from the unnamed file `part_001`
(lines 88-186): same structure as the `service.go` resolver but with no
MSI tier, and a certificate tier that requires tenant, certificate path
and certificate password (no client id) and does not assign `ClientID`. -/
def getApplicableAuthorizationDetails (cfg : AzureADConfig) (env : Env) :
    String × AuthConfig × Option String :=
  let tenantID := resolvedTenantID cfg env
  let clientID := resolvedClientID cfg env
  let clientSecret := resolvedClientSecret cfg env
  let certificatePath := resolvedCertificatePath cfg env
  let certificatePassword := resolvedCertificatePassword cfg env
  let base : AuthConfig :=
    { Environment := hamiltonEnvironment (resolvedEnvironment cfg env) }
  if tenantID = "" then
    ("CLI", { base with EnableAzureCliToken := true }, none)
  else if tenantID ≠ "" ∧ clientID ≠ "" ∧ clientSecret ≠ "" then
    ("EnableClientSecretAuth",
      { base with
        TenantID := tenantID
        ClientID := clientID
        ClientSecret := clientSecret
        EnableClientSecretAuth := true }, none)
  else if tenantID ≠ "" ∧ certificatePath ≠ "" ∧ certificatePassword ≠ "" then
    ("EnableClientCertificateAuth",
      { base with
        TenantID := tenantID
        ClientCertPath := certificatePath
        ClientCertPassword := certificatePassword
        EnableClientCertAuth := true }, none)
  else
    ("CLI", base, none)

/-- `GetNewSession` from the unnamed file `part_001` (lines 31-86).  The
cache lookup of `serviceCacheKey = "authMethod"` is commented out in the
source (lines 36-38), so every call runs the resolver, builds a fresh
session and overwrites the cache entry with `Cache.Set`. -/
def GetNewSession (cfg : AzureADConfig) (env : Env) (cliTenant : CliResult)
    (cache : Cache) : SessionResult × Cache :=
  match getApplicableAuthorizationDetails cfg env with
  | (_, _, some e) => (SessionResult.err e, cache)
  | (authMethod, authConfig, none) =>
    let tenantID := if authConfig.TenantID ≠ "" then authConfig.TenantID else ""
    let authorizer : Authorizer := ⟨authConfig⟩
    if authMethod = "CLI" then
      match cliTenant with
      | CliResult.err e => (SessionResult.err e, cache)
      | CliResult.ok t =>
        let sess : Session := ⟨t, authorizer⟩
        (SessionResult.ok sess, cacheSet cache "authMethod" (CacheValue.session sess))
    else
      let sess : Session := ⟨tenantID, authorizer⟩
      (SessionResult.ok sess, cacheSet cache "authMethod" (CacheValue.session sess))

end Part001

/-! ## Query filter builder (`part_001`, directory audit table) -/

/-- Split a character list at a separator character. -/
def splitOnChar (sep : Char) : List Char → List (List Char)
  | [] => [[]]
  | c :: rest =>
    let r := splitOnChar sep rest
    if c = sep then [] :: r
    else
      match r with
      | [] => [[c]]
      | w :: ws => (c :: w) :: ws

/-- Split a character list at underscores (the segments of a snake_case
name). -/
def splitOnUnderscore (l : List Char) : List (List Char) :=
  splitOnChar '_' l

/-- Upper-case the first character of a segment. -/
def capitalizeChars : List Char → List Char
  | [] => []
  | c :: rest => c.toUpper :: rest

/-- `strcase.ToCamel` on snake_case column names: split on `_` and
capitalize every segment (the library also upper-cases the first segment,
so `activity_display_name` becomes `ActivityDisplayName`). -/
def toCamel (s : String) : String :=
  String.mk (List.flatten ((splitOnUnderscore s.toList).map capitalizeChars))

/-- The key set of the `filterQuals` map literal in
`buildDirectoryAuditQueryFilter` (the values `"string"` are unused). -/
def filterQualsKeys : List String :=
  ["activity_display_name", "category", "correlation_id", "result"]

/-- `buildDirectoryAuditQueryFilter` from the unnamed file `part_001`
(lines 427-444).  The Go loop `for qual := range filterQuals` iterates the
four map keys in an order the Go specification leaves undefined (and the
runtime randomizes per run); the iteration order is therefore an explicit
parameter here, constrained in the theorems to be a permutation of
`filterQualsKeys`.  The loop body appends
`fmt.Sprintf("%s eq '%s'", strcase.ToCamel(qual), value)` whenever the
equality qual is present. -/
def buildDirectoryAuditQueryFilter (order : List String)
    (equalQuals : String → Option String) : List String :=
  order.foldl
    (fun filters qual =>
      match equalQuals qual with
      | some v => filters ++ [toCamel qual ++ " eq '" ++ v ++ "'"]
      | none => filters)
    []

/-- `strings.Join(filter, " and ")` from `listAdDirectoryAuditReports`
(line 364). -/
def joinAnd (filter : List String) : String :=
  String.intercalate " and " filter

/-! ## RFC3339 rendering of timestamps

`q.Value.GetTimestampValue().AsTime()` yields a UTC instant; it is
modelled at second granularity as a count of seconds since the Unix epoch
(`time.Second` is then `1`).  `Format(time.RFC3339)` is reimplemented
below (proleptic Gregorian civil-from-days conversion, `Z` suffix for
UTC), so clause strings are concrete. -/

def pad2 (n : Nat) : String :=
  if n < 10 then "0" ++ toString n else toString n

def pad4 (n : Nat) : String :=
  if n < 10 then "000" ++ toString n
  else if n < 100 then "00" ++ toString n
  else if n < 1000 then "0" ++ toString n
  else toString n

/-- Civil date from a day count relative to 1970-01-01 (Howard Hinnant's
`civil_from_days` algorithm, floor division for the era). -/
def civilFromDays (z0 : Int) : Int × Nat × Nat :=
  let z := z0 + 719468
  let era := Int.fdiv z 146097
  let doe := (z - era * 146097).toNat
  let yoe := (doe - doe / 1460 + doe / 36524 - doe / 146096) / 365
  let y : Int := (yoe : Int) + era * 400
  let doy := doe - (365 * yoe + yoe / 4 - yoe / 100)
  let mp := (5 * doy + 2) / 153
  let d := doy - (153 * mp + 2) / 5 + 1
  let m := if mp < 10 then mp + 3 else mp - 9
  (if m ≤ 2 then y + 1 else y, m, d)

/-- `time.Time.Format(time.RFC3339)` for a UTC instant given as Unix
seconds. -/
def rfc3339FromUnix (t : Int) : String :=
  let days := Int.fdiv t 86400
  let secs := (t - days * 86400).toNat
  let ymd := civilFromDays days
  let y := ymd.1
  let yearStr := if y < 0 then "-" ++ pad4 (-y).toNat else pad4 y.toNat
  yearStr ++ "-" ++ pad2 ymd.2.1 ++ "-" ++ pad2 ymd.2.2 ++ "T" ++
    pad2 (secs / 3600) ++ ":" ++ pad2 (secs % 3600 / 60) ++ ":" ++
    pad2 (secs % 60) ++ "Z"

/-- The `switch q.Operator` translation of one `activity_date_time` qual
in `listAdDirectoryAuditReports` (`part_001`, lines 335-355): strict
bounds are shifted by one second (`givenTime.Add(time.Second * 1)` /
`time.Duration(-1) * time.Second`) and rendered with the inclusive
`ge` / `le`; `>=`, `=`, `<=` render directly; any other operator falls
out of the `switch` and appends nothing. -/
def timeQualClause (op : String) (givenTime : Int) : Option String :=
  match op with
  | ">" => some ("activityDateTime ge " ++ rfc3339FromUnix (givenTime + 1))
  | ">=" => some ("activityDateTime ge " ++ rfc3339FromUnix givenTime)
  | "=" => some ("activityDateTime eq " ++ rfc3339FromUnix givenTime)
  | "<=" => some ("activityDateTime le " ++ rfc3339FromUnix givenTime)
  | "<" => some ("activityDateTime le " ++ rfc3339FromUnix (givenTime - 1))
  | _ => none

/-- The `for _, q := range d.Quals["activity_date_time"].Quals` loop:
each qual's clause (operator, timestamp) is appended to the filter slice
built so far. -/
def appendTimeQuals (filter : List String) (quals : List (String × Int)) :
    List String :=
  quals.foldl
    (fun f q =>
      match timeQualClause q.1 q.2 with
      | some c => f ++ [c]
      | none => f)
    filter

/-! ## Paged iteration with a row budget -/

/-- The externally owned streaming state: items handed to
`d.StreamListItem` so far and `RowsRemaining`, the caller's decrementing
row budget. -/
structure StreamState (α : Type) where
  emitted : List α
  rowsRemaining : Nat
deriving DecidableEq

/-- `d.StreamListItem`: hands one row to the caller; the caller's row
budget decreases by one (steampipe decrements `RowsRemaining` as rows are
streamed; the budget is owned by the caller, not by the iterator). -/
def streamListItem {α : Type} (s : StreamState α) (item : α) : StreamState α :=
  ⟨s.emitted ++ [item], s.rowsRemaining - 1⟩

/-- The visitor callback passed to `pageIterator.Iterate` in
`listAdDirectoryAuditReports` (`part_001`, lines 385-393): stream the item
when the `models.DirectoryAuditable` type assertion succeeds (`none`
models a failed assertion), then return `d.RowsRemaining(ctx) != 0` —
the budget is checked after each item, and a `false` return stops the
iteration. -/
def listCallback {α : Type} (pageItem : Option α) (s : StreamState α) :
    Bool × StreamState α :=
  let s' :=
    match pageItem with
    | some item => streamListItem s item
    | none => s
  (decide (s'.rowsRemaining ≠ 0), s')

/-- Modelled from the spec: `msgraphcore.PageIterator.Iterate` over one
page — the library is not under `src/`; spec 4.4 states that on each item
the visitor runs and a `false` return transitions to Done immediately.
Returns `(continue?, state)`: `false` as soon as the callback asks to
stop, `true` when the page is exhausted. -/
def iteratePage {α : Type} : List (Option α) → StreamState α → Bool × StreamState α
  | [], s => (true, s)
  | item :: rest, s =>
    let r := listCallback item s
    if r.1 then iteratePage rest r.2 else (false, r.2)

/-- Modelled from the spec: `msgraphcore.PageIterator.Iterate` over the
whole page chain — the library is not under `src/`; spec 4.4: the first
page is already fetched, the next page is fetched only when the current
page is exhausted, the callback still asks to continue and a continuation
exists.  Returns the final state and the number of pages fetched after
the first. -/
def iteratePages {α : Type} : List (List (Option α)) → StreamState α → StreamState α × Nat
  | [], s => (s, 0)
  | page :: rest, s =>
    let r := iteratePage page s
    if r.1 then
      match rest with
      | [] => (r.2, 0)
      | next :: more =>
        let r' := iteratePages (next :: more) r.2
        (r'.1, r'.2 + 1)
    else (r.2, 0)

/-! ## Error classifier (`part_000`) -/

/-- `RequestError` from the unnamed file `part_000`: the normalized
`(code, message)` pair produced by `getErrorObject`. -/
structure RequestError where
  Code : String
  Message : String
deriving DecidableEq

/-- `strings.Contains(s, sub)`: some index of `s` starts the substring
`sub`. -/
def strContains (s sub : String) : Bool :=
  (List.range (s.toList.length + 1)).any
    (fun i => sub.toList.isPrefixOf (s.toList.drop i))

/-- `isIgnorableErrorPredicate` from the unnamed file `part_000`
(lines 37-50), applied to an incoming error: `nil` errors (`none`) and
errors that are not `*RequestError` are never ignorable; a
`*RequestError` is ignorable when some configured pattern equals its code
exactly or occurs in its message as a substring. -/
def isIgnorableErrorPredicate (ignoreErrorCodes : List String)
    (err : Option RequestError) : Bool :=
  match err with
  | none => false
  | some terr =>
    ignoreErrorCodes.any
      (fun item => terr.Code == item || strContains terr.Message item)

/-! ## The CLI delegate invocation (`getTenantFromCLI`) -/

/-- The process environment variables `getTenantFromCLI` reads, plus the
ambient `PATH` used by `exec.Command`'s binary lookup. -/
structure ProcEnv where
  PATH : String
  AzureCLIPath : String
  ProgramFiles : String
  ProgramFilesX86 : String
  windir : String
deriving DecidableEq

/-- `exec.LookPath(file)` for a slash-free name: scan the directories of
the `PATH` value in order and return the first `dir ++ "/" ++ file` that
exists as an executable; the file system is a list of executable paths. -/
def lookPath (fs : List String) (pathVar : String) (file : String) : Option String :=
  ((splitOnChar ':' pathVar.toList).map String.mk).findSome?
    (fun dir =>
      let cand := dir ++ "/" ++ file
      if fs.contains cand then some cand else none)

/-- The command `getTenantFromCLI` is about to run: the executable path
(`Cmd.Path`), the argument vector, and the effective `PATH` of the child
process environment (the entry appended to `cliCmd.Env` last, which wins
over the inherited one). -/
structure CmdSpec where
  path : String
  argv : List String
  childPATH : String
deriving DecidableEq

/-- Command construction in `getTenantFromCLI` (`azuread/service.go`
lines 196-218; identically in `part_001` lines 190-212).

On the non-Windows branch the source calls `exec.Command("az")`: per the
`os/exec` contract, a name free of path separators is resolved with
`exec.LookPath` at command-creation time against the *ambient* `PATH` of
the calling process — the `PATH=` entry appended to `cliCmd.Env`
afterwards only configures the child process's environment, not this
lookup (when the lookup fails, `Cmd.Path` is left as the bare name).  On
the Windows branch the executable is `%windir%\system32\cmd.exe`, an
absolute path, with `az` resolved later by `cmd.exe` inside the child
environment. -/
def getTenantFromCLICommand (goos : String) (env : ProcEnv) (fs : List String) :
    CmdSpec :=
  let azureCLIDefaultPathWindows :=
    env.ProgramFilesX86 ++ "\\Microsoft SDKs\\Azure\\CLI2\\wbin; " ++
      env.ProgramFiles ++ "\\Microsoft SDKs\\Azure\\CLI2\\wbin"
  let azureCLIDefaultPath := "/bin:/sbin:/usr/bin:/usr/local/bin"
  let tailArgs := ["account", "get-access-token", "--resource-type=ms-graph", "-o", "json"]
  if goos = "windows" then
    { path := env.windir ++ "\\system32\\cmd.exe"
      argv := [env.windir ++ "\\system32\\cmd.exe", "/c", "az"] ++ tailArgs
      childPATH := env.AzureCLIPath ++ ";" ++ azureCLIDefaultPathWindows }
  else
    { path :=
        match lookPath fs env.PATH "az" with
        | some p => p
        | none => "az"
      argv := ["az"] ++ tailArgs
      childPATH := env.AzureCLIPath ++ ":" ++ azureCLIDefaultPath }

/-! ## Projections used by counterexample statements -/

/-- Tenant id of a successful session result. -/
def sessionResultTenant : SessionResult → Option String
  | SessionResult.ok s => some s.TenantID
  | SessionResult.err _ => none

/-- Tenant id of the session cached under a key, if any. -/
def cachedSessionTenantAt (c : Cache) (k : String) : Option String :=
  match cacheGet c k with
  | some (CacheValue.session s) => some s.TenantID
  | _ => none

/-! # Helper lemmas -/

theorem cacheGet_cacheSet_self (c : Cache) (k : String) (v : CacheValue) :
    cacheGet (cacheSet c k v) k = some v := by
  simp [cacheGet, cacheSet]

/-- A successful `GetNewSession` on a cache miss stored exactly the
returned session under the fixed key. -/
theorem getNewSession_ok_stores (cfg : AzureADConfig) (env : Env)
    (cli : CliResult) (cache0 cache1 : Cache) (s : Session)
    (hmiss : cacheGet cache0 "GetNewSession" = none)
    (h : GetNewSession cfg env cli cache0 = (SessionResult.ok s, cache1)) :
    cache1 = cacheSet cache0 "GetNewSession" (CacheValue.session s) := by
  simp only [GetNewSession, hmiss] at h
  split at h
  · simp at h
  · split at h
    · split at h
      · simp at h
      · obtain ⟨h1, h2⟩ := Prod.mk.injEq .. ▸ h
        cases h1
        exact h2.symm
    · obtain ⟨h1, h2⟩ := Prod.mk.injEq .. ▸ h
      cases h1
      exact h2.symm

/-- A cache hit on the session key returns the cached session and leaves
the cache unchanged. -/
theorem getNewSession_hit (cfg : AzureADConfig) (env : Env) (cli : CliResult)
    (cache : Cache) (s : Session)
    (hhit : cacheGet cache "GetNewSession" = some (CacheValue.session s)) :
    GetNewSession cfg env cli cache = (SessionResult.ok s, cache) := by
  simp [GetNewSession, hhit]

/-- A successful `GetGraphClient` on a cache miss stored exactly the
returned client under the fixed key. -/
theorem getGraphClient_ok_stores (cfg : AzureADConfig) (env : Env)
    (rf : String → FileRead) (pc : String → Option String → ParseResult)
    (cache0 cache1 : Cache) (c : GraphServiceClient)
    (ad : Option GraphRequestAdapter)
    (hmiss : cacheGet cache0 "GetGraphClient" = none)
    (h : GetGraphClient cfg env rf pc cache0 = ((some c, ad, none), cache1)) :
    cache1 = cacheSet cache0 "GetGraphClient" (CacheValue.client c) := by
  simp only [GetGraphClient, hmiss] at h
  split at h
  · simp at h
  · obtain ⟨h1, h2⟩ := Prod.mk.injEq .. ▸ h
    obtain ⟨hc, -⟩ := Prod.mk.injEq .. ▸ h1
    cases Option.some.injEq .. ▸ hc
    exact h2.symm

/-- A cache hit on the client key returns the cached client, a `nil`
adapter and no error, leaving the cache unchanged. -/
theorem getGraphClient_hit (cfg : AzureADConfig) (env : Env)
    (rf : String → FileRead) (pc : String → Option String → ParseResult)
    (cache : Cache) (c : GraphServiceClient)
    (hhit : cacheGet cache "GetGraphClient" = some (CacheValue.client c)) :
    GetGraphClient cfg env rf pc cache = ((some c, none, none), cache) := by
  simp [GetGraphClient, hhit]

/-- The clause the filter-builder loop body produces for one key. -/
def filterClause (equalQuals : String → Option String) (qual : String) :
    Option String :=
  (equalQuals qual).map (fun v => toCamel qual ++ " eq '" ++ v ++ "'")

theorem buildFilter_foldl_general (q : String → Option String) :
    ∀ (order acc : List String),
      order.foldl
        (fun filters qual =>
          match q qual with
          | some v => filters ++ [toCamel qual ++ " eq '" ++ v ++ "'"]
          | none => filters)
        acc = acc ++ order.filterMap (filterClause q) := by
  intro order
  induction order with
  | nil => intro acc; simp
  | cons a rest ih =>
    intro acc
    cases h : q a <;>
      simp [List.foldl_cons, h, ih, filterClause, List.filterMap_cons]

/-- The filter builder is the `filterMap` of the clause function over the
iteration order. -/
theorem buildFilter_eq_filterMap (order : List String)
    (q : String → Option String) :
    buildDirectoryAuditQueryFilter order q = order.filterMap (filterClause q) := by
  simpa using buildFilter_foldl_general q order []

/-- A budget that runs out within the first page stops the callback
mid-page: exactly the first `b` items are streamed and the callback
returns `false`. -/
theorem iteratePage_budget_exhausted {α : Type} :
    ∀ (l : List α) (acc : List α) (b : Nat), 0 < b → b ≤ l.length →
      iteratePage (l.map some) ⟨acc, b⟩ = (false, ⟨acc ++ l.take b, 0⟩) := by
  intro l
  induction l with
  | nil => intro acc b hb hl; simp at hl; omega
  | cons a rest ih =>
    intro acc b hb hl
    match b, hb with
    | 1, _ =>
      simp [iteratePage, listCallback, streamListItem]
    | Nat.succ (Nat.succ n), _ =>
      have hrest : n + 1 ≤ rest.length := by
        simpa using Nat.lt_of_succ_lt_succ (Nat.lt_of_lt_of_le (Nat.lt_succ_self _) hl)
      have ihx := ih (acc ++ [a]) (n + 1) (Nat.succ_pos n) hrest
      simp [iteratePage, listCallback, streamListItem, ihx, List.take_succ_cons]

/-! # Claim theorems -/

/-- Claim C2: whenever the resolved tenant id is the empty string,
credential resolution selects the CLI delegate method, whatever the other
fields hold — `getApplicableAuthorizationDetails` returns method `"CLI"`
with `EnableAzureCliToken` set, and `GetGraphClient` (on a cache miss)
builds its client and adapter from the Azure CLI credential. -/
theorem emptyTenant_selects_cli (cfg : AzureADConfig) (env : Env)
    (h : resolvedTenantID cfg env = "") :
    (getApplicableAuthorizationDetails cfg env).1 = "CLI" ∧
    (getApplicableAuthorizationDetails cfg env).2.1.EnableAzureCliToken = true ∧
    ∀ (rf : String → FileRead) (pc : String → Option String → ParseResult)
      (cache : Cache),
      cacheGet cache "GetGraphClient" = none →
      (GetGraphClient cfg env rf pc cache).1 =
        (some ⟨⟨some Credential.azureCLI⟩⟩, some ⟨some Credential.azureCLI⟩, none) := by
  refine ⟨?_, ?_, ?_⟩
  · simp [getApplicableAuthorizationDetails, h]
  · simp [getApplicableAuthorizationDetails, h]
  · intro rf pc cache hmiss
    simp [GetGraphClient, hmiss, h]

/-- Claim C2 witness: with tenant configured empty and client id, secret,
certificate and managed-identity fields all populated, resolution still
selects CLI on both paths. -/
theorem emptyTenant_selects_cli_witness :
    resolvedTenantID
        ⟨some "", some "c", some "s", some "p", some "pw", none, some true, some "e"⟩
        ⟨"", "", "", "", "", ""⟩ = "" ∧
    (getApplicableAuthorizationDetails
        ⟨some "", some "c", some "s", some "p", some "pw", none, some true, some "e"⟩
        ⟨"", "", "", "", "", ""⟩).1 = "CLI" ∧
    (GetGraphClient
        ⟨some "", some "c", some "s", some "p", some "pw", none, some true, some "e"⟩
        ⟨"", "", "", "", "", ""⟩ (fun _ => FileRead.err "no file")
        (fun _ _ => ParseResult.err "no parse") []).1 =
      (some ⟨⟨some Credential.azureCLI⟩⟩, some ⟨some Credential.azureCLI⟩, none) :=
  ⟨by decide,
    (emptyTenant_selects_cli
      ⟨some "", some "c", some "s", some "p", some "pw", none, some true, some "e"⟩
      ⟨"", "", "", "", "", ""⟩ (by decide)).1,
    (emptyTenant_selects_cli
      ⟨some "", some "c", some "s", some "p", some "pw", none, some true, some "e"⟩
      ⟨"", "", "", "", "", ""⟩ (by decide)).2.2
      (fun _ => FileRead.err "no file") (fun _ _ => ParseResult.err "no parse")
      [] (by decide)⟩

/-- Claim C3 counterexample: tenant `"t"`, client id `"c"` and
certificate path `"p"` are all non-empty, no higher-precedence tier
applies (the client secret is empty), the certificate password is absent
— yet `getApplicableAuthorizationDetails` does NOT select certificate
auth: it falls through to the method `"CLI"` with no certificate flag,
because its certificate tier also requires a non-empty certificate
password.  This refutes "resolution selects Certificate auth whether or
not the certificate password is supplied" for the resolver. -/
theorem certTier_password_required_counterexample :
    resolvedTenantID
        ⟨some "t", some "c", none, some "p", none, none, none, none⟩
        ⟨"", "", "", "", "", ""⟩ ≠ "" ∧
    resolvedClientID
        ⟨some "t", some "c", none, some "p", none, none, none, none⟩
        ⟨"", "", "", "", "", ""⟩ ≠ "" ∧
    resolvedCertificatePath
        ⟨some "t", some "c", none, some "p", none, none, none, none⟩
        ⟨"", "", "", "", "", ""⟩ ≠ "" ∧
    resolvedClientSecret
        ⟨some "t", some "c", none, some "p", none, none, none, none⟩
        ⟨"", "", "", "", "", ""⟩ = "" ∧
    resolvedCertificatePassword
        ⟨some "t", some "c", none, some "p", none, none, none, none⟩
        ⟨"", "", "", "", "", ""⟩ = "" ∧
    (getApplicableAuthorizationDetails
        ⟨some "t", some "c", none, some "p", none, none, none, none⟩
        ⟨"", "", "", "", "", ""⟩).1 ≠ "EnableClientCertificateAuth" ∧
    (getApplicableAuthorizationDetails
        ⟨some "t", some "c", none, some "p", none, none, none, none⟩
        ⟨"", "", "", "", "", ""⟩).1 = "CLI" ∧
    (getApplicableAuthorizationDetails
        ⟨some "t", some "c", none, some "p", none, none, none, none⟩
        ⟨"", "", "", "", "", ""⟩).2.1.EnableClientCertAuth = false := by
  decide

/-- Claim C3 amended: with tenant, client id and certificate path
non-empty and the secret tier inapplicable, `GetGraphClient` selects
certificate auth whether or not the certificate password is supplied
(parsing with `nil` password when it is empty); but
`getApplicableAuthorizationDetails` (the `GetNewSession` resolver)
selects its certificate tier only when the certificate password is also
non-empty, and falls through otherwise. -/
theorem certTier_selection_amended (cfg : AzureADConfig) (env : Env) :
    (∀ (rf : String → FileRead) (pc : String → Option String → ParseResult)
        (cache : Cache) (d k : String),
      cacheGet cache "GetGraphClient" = none →
      resolvedTenantID cfg env ≠ "" →
      resolvedClientID cfg env ≠ "" →
      resolvedClientSecret cfg env = "" →
      resolvedCertificatePath cfg env ≠ "" →
      rf (resolvedCertificatePath cfg env) = FileRead.ok d →
      pc d (if resolvedCertificatePassword cfg env = "" then none
            else some (resolvedCertificatePassword cfg env)) = ParseResult.ok k →
      (GetGraphClient cfg env rf pc cache).1 =
        (some ⟨⟨some (Credential.clientCertificate (resolvedTenantID cfg env)
            (resolvedClientID cfg env) k
            (cloudConfigurationOf (resolvedEnvironment cfg env)))⟩⟩,
          some ⟨some (Credential.clientCertificate (resolvedTenantID cfg env)
            (resolvedClientID cfg env) k
            (cloudConfigurationOf (resolvedEnvironment cfg env)))⟩, none)) ∧
    (resolvedTenantID cfg env ≠ "" →
      resolvedClientID cfg env ≠ "" →
      resolvedClientSecret cfg env = "" →
      resolvedCertificatePath cfg env ≠ "" →
      resolvedCertificatePassword cfg env ≠ "" →
      (getApplicableAuthorizationDetails cfg env).1 = "EnableClientCertificateAuth" ∧
      (getApplicableAuthorizationDetails cfg env).2.1.EnableClientCertAuth = true) ∧
    (resolvedCertificatePassword cfg env = "" →
      (getApplicableAuthorizationDetails cfg env).1 ≠ "EnableClientCertificateAuth") := by
  refine ⟨?_, ?_, ?_⟩
  · intro rf pc cache d k hmiss ht hc hs hp hrf hpc
    simp [GetGraphClient, hmiss, ht, hc, hs, hp, hrf, hpc]
  · intro ht hc hs hp hpw
    simp only [getApplicableAuthorizationDetails]
    rw [if_neg ht]
    rw [if_neg (by simp [hs])]
    rw [if_pos ⟨ht, hc, hp, hpw⟩]
    exact ⟨rfl, rfl⟩
  · intro hpw
    simp only [getApplicableAuthorizationDetails]
    split_ifs with h1 h2 h3 h4 <;> simp_all

/-- Claim C3 amended witness: a concrete configuration with tenant,
client id and certificate path set and no password — `GetGraphClient`
selects the certificate credential (parsing with `nil` password) — and
the same configuration with a password, for which the resolver selects
its certificate tier. -/
theorem certTier_selection_amended_witness :
    (GetGraphClient ⟨some "t", some "c", none, some "p", none, none, none, none⟩
        ⟨"", "", "", "", "", ""⟩ (fun _ => FileRead.ok "data")
        (fun _ pw => match pw with
          | none => ParseResult.ok "ck"
          | some _ => ParseResult.ok "ck2") []).1 =
      (some ⟨⟨some (Credential.clientCertificate "t" "c" "ck" "AzurePublic")⟩⟩,
        some ⟨some (Credential.clientCertificate "t" "c" "ck" "AzurePublic")⟩, none) ∧
    (getApplicableAuthorizationDetails
        ⟨some "t", some "c", none, some "p", some "pw", none, none, none⟩
        ⟨"", "", "", "", "", ""⟩).1 = "EnableClientCertificateAuth" :=
  ⟨(certTier_selection_amended
      ⟨some "t", some "c", none, some "p", none, none, none, none⟩
      ⟨"", "", "", "", "", ""⟩).1
      (fun _ => FileRead.ok "data")
      (fun _ pw => match pw with
        | none => ParseResult.ok "ck"
        | some _ => ParseResult.ok "ck2")
      [] "data" "ck" (by decide) (by decide) (by decide) (by decide) (by decide)
      (by decide) (by decide),
    ((certTier_selection_amended
      ⟨some "t", some "c", none, some "p", some "pw", none, none, none⟩
      ⟨"", "", "", "", "", ""⟩).2.1
      (by decide) (by decide) (by decide) (by decide) (by decide)).1⟩

/-- Claim C4: credential resolution never fails on a partially-specified
tier.  Both resolvers always return a `nil` error (their named `err`
result is never assigned); a secret tier missing its client secret is
skipped, a certificate tier missing its password is skipped, and when no
tier applies the resolver falls through to the CLI default rather than
erroring; a skipped secret tier falls through to the certificate tier
when that one is complete, and to MSI when the MSI flag is on. -/
theorem resolver_partial_tiers_fall_through (cfg : AzureADConfig) (env : Env) :
    (getApplicableAuthorizationDetails cfg env).2.2 = none ∧
    (Part001.getApplicableAuthorizationDetails cfg env).2.2 = none ∧
    (resolvedClientSecret cfg env = "" →
      (getApplicableAuthorizationDetails cfg env).1 ≠ "EnableClientSecretAuth") ∧
    (resolvedCertificatePassword cfg env = "" →
      (getApplicableAuthorizationDetails cfg env).1 ≠ "EnableClientCertificateAuth") ∧
    (resolvedTenantID cfg env ≠ "" →
      resolvedClientSecret cfg env = "" →
      resolvedCertificatePassword cfg env = "" →
      resolvedEnableMsi cfg = false →
      (getApplicableAuthorizationDetails cfg env).1 = "CLI") ∧
    (resolvedTenantID cfg env ≠ "" →
      resolvedClientID cfg env ≠ "" →
      resolvedClientSecret cfg env = "" →
      resolvedCertificatePath cfg env ≠ "" →
      resolvedCertificatePassword cfg env ≠ "" →
      (getApplicableAuthorizationDetails cfg env).1 = "EnableClientCertificateAuth") ∧
    (resolvedTenantID cfg env ≠ "" →
      resolvedClientSecret cfg env = "" →
      resolvedCertificatePassword cfg env = "" →
      resolvedEnableMsi cfg = true →
      (getApplicableAuthorizationDetails cfg env).1 = "EnableMsiAuth") ∧
    (resolvedClientSecret cfg env = "" →
      (Part001.getApplicableAuthorizationDetails cfg env).1 ≠ "EnableClientSecretAuth") := by
  refine ⟨?_, ?_, ?_, ?_, ?_, ?_, ?_, ?_⟩
  · simp only [getApplicableAuthorizationDetails]
    split_ifs <;> rfl
  · simp only [Part001.getApplicableAuthorizationDetails]
    split_ifs <;> rfl
  · intro hs
    simp only [getApplicableAuthorizationDetails]
    split_ifs <;> simp_all
  · intro hpw
    simp only [getApplicableAuthorizationDetails]
    split_ifs <;> simp_all
  · intro ht hs hpw hmsi
    simp only [getApplicableAuthorizationDetails]
    split_ifs <;> simp_all
  · intro ht hc hs hp hpw
    simp only [getApplicableAuthorizationDetails]
    rw [if_neg ht]
    rw [if_neg (by simp [hs])]
    rw [if_pos ⟨ht, hc, hp, hpw⟩]
  · intro ht hs hpw hmsi
    simp only [getApplicableAuthorizationDetails]
    split_ifs <;> simp_all
  · intro hs
    simp only [Part001.getApplicableAuthorizationDetails]
    split_ifs <;> simp_all

/-- Claim C4 witness: tenant and client id set, secret missing, complete
certificate tier — resolution does not error and falls through past the
secret tier to the certificate tier; and with everything but tenant and
MSI missing, it falls through to CLI. -/
theorem resolver_partial_tiers_fall_through_witness :
    (getApplicableAuthorizationDetails
        ⟨some "t", some "c", none, some "p", some "pw", none, none, none⟩
        ⟨"", "", "", "", "", ""⟩).2.2 = none ∧
    (getApplicableAuthorizationDetails
        ⟨some "t", some "c", none, some "p", some "pw", none, none, none⟩
        ⟨"", "", "", "", "", ""⟩).1 = "EnableClientCertificateAuth" ∧
    (getApplicableAuthorizationDetails
        ⟨some "t", some "c", none, none, none, none, none, none⟩
        ⟨"", "", "", "", "", ""⟩).1 = "CLI" :=
  ⟨(resolver_partial_tiers_fall_through
      ⟨some "t", some "c", none, some "p", some "pw", none, none, none⟩
      ⟨"", "", "", "", "", ""⟩).1,
    (resolver_partial_tiers_fall_through
      ⟨some "t", some "c", none, some "p", some "pw", none, none, none⟩
      ⟨"", "", "", "", "", ""⟩).2.2.2.2.2.1
      (by decide) (by decide) (by decide) (by decide) (by decide),
    (resolver_partial_tiers_fall_through
      ⟨some "t", some "c", none, none, none, none, none, none⟩
      ⟨"", "", "", "", "", ""⟩).2.2.2.2.1
      (by decide) (by decide) (by decide) (by decide)⟩

/-- Claim C5 counterexample: the same predicate set (`category` = `x`,
`result` = `y`), built under two iteration orders that are both
permutations of the `filterQuals` key set — which is all the Go `range`
over a map guarantees — yields two different clause lists and two
different joined filter strings.  The builder's output order follows the
randomized map iteration order, not a fixed field order, so two runs are
not guaranteed character-for-character identical. -/
theorem buildFilter_order_dependent :
    filterQualsKeys.Perm filterQualsKeys ∧
    filterQualsKeys.reverse.Perm filterQualsKeys ∧
    buildDirectoryAuditQueryFilter filterQualsKeys
        (fun s => if s = "category" then some "x"
          else if s = "result" then some "y" else none) ≠
      buildDirectoryAuditQueryFilter filterQualsKeys.reverse
        (fun s => if s = "category" then some "x"
          else if s = "result" then some "y" else none) ∧
    joinAnd (buildDirectoryAuditQueryFilter filterQualsKeys
        (fun s => if s = "category" then some "x"
          else if s = "result" then some "y" else none)) ≠
      joinAnd (buildDirectoryAuditQueryFilter filterQualsKeys.reverse
        (fun s => if s = "category" then some "x"
          else if s = "result" then some "y" else none)) ∧
    joinAnd (buildDirectoryAuditQueryFilter filterQualsKeys
        (fun s => if s = "category" then some "x"
          else if s = "result" then some "y" else none)) =
      "Category eq 'x' and Result eq 'y'" ∧
    joinAnd (buildDirectoryAuditQueryFilter filterQualsKeys.reverse
        (fun s => if s = "category" then some "x"
          else if s = "result" then some "y" else none)) =
      "Result eq 'y' and Category eq 'x'" := by
  refine ⟨List.Perm.refl _, ?_, ?_, ?_, ?_, ?_⟩ <;> decide

/-- Claim C5 amended: the filter builder is deterministic up to clause
order — under any two iteration orders of the `filterQuals` map keys (any
two permutations of the fixed key set) the produced clause lists are
permutations of each other, each clause being rendered identically; the
concatenation order itself follows the map iteration order, which Go
randomizes, so only the clause multiset (not the joined string) is
run-to-run invariant. -/
theorem buildFilter_deterministic_up_to_order (o1 o2 : List String)
    (q : String → Option String)
    (h1 : o1.Perm filterQualsKeys) (h2 : o2.Perm filterQualsKeys) :
    (buildDirectoryAuditQueryFilter o1 q).Perm
      (buildDirectoryAuditQueryFilter o2 q) := by
  rw [buildFilter_eq_filterMap, buildFilter_eq_filterMap]
  exact (h1.trans h2.symm).filterMap _

/-- Claim C5 amended witness: two concrete permutations of the key set
give permutation-equivalent clause lists. -/
theorem buildFilter_deterministic_up_to_order_witness :
    filterQualsKeys.reverse.Perm filterQualsKeys ∧
    (buildDirectoryAuditQueryFilter filterQualsKeys
        (fun s => if s = "category" then some "x"
          else if s = "result" then some "y" else none)).Perm
      (buildDirectoryAuditQueryFilter filterQualsKeys.reverse
        (fun s => if s = "category" then some "x"
          else if s = "result" then some "y" else none)) :=
  ⟨by decide,
    buildFilter_deterministic_up_to_order filterQualsKeys filterQualsKeys.reverse
      (fun s => if s = "category" then some "x"
        else if s = "result" then some "y" else none)
      (List.Perm.refl _) (by decide)⟩

/-- Claim C6: on the `activity_date_time` field, a strict `>` qual
renders as the inclusive `ge` clause at `T` plus one second — exactly the
clause `>=` would produce at `T + 1` — and a strict `<` as `le` at `T`
minus one second, while `>=`, `<=` and `=` translate directly to `ge`,
`le` and `eq` at `T` itself; appending a `>` qual to a filter under
construction appends that shifted clause. -/
theorem timeQual_boundary_shifts (t : Int) (f : List String) :
    timeQualClause ">" t = timeQualClause ">=" (t + 1) ∧
    timeQualClause "<" t = timeQualClause "<=" (t - 1) ∧
    timeQualClause ">" t =
      some ("activityDateTime ge " ++ rfc3339FromUnix (t + 1)) ∧
    timeQualClause "<" t =
      some ("activityDateTime le " ++ rfc3339FromUnix (t - 1)) ∧
    timeQualClause ">=" t =
      some ("activityDateTime ge " ++ rfc3339FromUnix t) ∧
    timeQualClause "<=" t =
      some ("activityDateTime le " ++ rfc3339FromUnix t) ∧
    timeQualClause "=" t =
      some ("activityDateTime eq " ++ rfc3339FromUnix t) ∧
    appendTimeQuals f [(">", t)] =
      f ++ ["activityDateTime ge " ++ rfc3339FromUnix (t + 1)] ∧
    appendTimeQuals f [("<", t)] =
      f ++ ["activityDateTime le " ++ rfc3339FromUnix (t - 1)] := by
  refine ⟨rfl, rfl, rfl, rfl, rfl, rfl, rfl, ?_, ?_⟩ <;>
    simp [appendTimeQuals, timeQualClause]

/-- Claim C7: the iteration over a two-page result, with every page item
passing the type assertion, streams one row per visited item and consults
the row budget after each one; when the budget `b` runs out within the
first page (`0 < b ≤` its length), exactly the first `b` items of page 1
are emitted, the remaining budget is `0`, and no page beyond the first is
ever fetched. -/
theorem pageIterator_budget_stops {α : Type} (p1 p2 : List α) (b : Nat)
    (hb : 0 < b) (hlen : b ≤ p1.length) :
    iteratePages [p1.map some, p2.map some] ⟨[], b⟩ =
      (⟨p1.take b, 0⟩, 0) := by
  have h := iteratePage_budget_exhausted p1 [] b hb hlen
  simp [iteratePages, h]

/-- Claim C7 witness: page 1 holds four items, page 2 two more, the row
budget is 3 — exactly the first three items of page 1 are emitted and
page 2 is never requested. -/
theorem pageIterator_budget_stops_witness :
    0 < 3 ∧ 3 ≤ [10, 11, 12, 13].length ∧
    iteratePages [[10, 11, 12, 13].map some, [20, 21].map some]
        (⟨[], 3⟩ : StreamState Nat) = (⟨[10, 11, 12], 0⟩, 0) :=
  ⟨by decide, by decide,
    pageIterator_budget_stops [10, 11, 12, 13] [20, 21] 3 (by decide) (by decide)⟩

/-- Claim C8: `isIgnorableErrorPredicate` on a normalized error returns
`true` exactly when the error's code equals one of the configured
patterns or its message contains one of them as a substring; in
particular a `Request_ResourceNotFound` error is ignorable under the
directory-audit get operation's pattern set and fatal under a pattern set
without that code. -/
theorem isIgnorable_characterization :
    (∀ (patterns : List String) (e : RequestError),
      isIgnorableErrorPredicate patterns (some e) = true ↔
        ∃ p ∈ patterns, e.Code = p ∨ strContains e.Message p = true) ∧
    isIgnorableErrorPredicate ["Request_ResourceNotFound", "Invalid object identifier"]
        (some ⟨"Request_ResourceNotFound", "resource does not exist"⟩) = true ∧
    isIgnorableErrorPredicate ["Authorization_RequestDenied"]
        (some ⟨"Request_ResourceNotFound", "resource does not exist"⟩) = false ∧
    (∀ patterns : List String, isIgnorableErrorPredicate patterns none = false) := by
  refine ⟨?_, by decide, by decide, fun _ => rfl⟩
  intro patterns e
  simp [isIgnorableErrorPredicate, List.any_eq_true, Bool.or_eq_true, beq_iff_eq]

/-- Claim C9 (code bug): on the non-Windows branch, `exec.Command("az")`
resolves the helper binary against the inherited `PATH` of the calling
process at command-creation time, so two runs whose environments differ
only in the inherited `PATH` locate different `az` binaries — here
`/attacker/az` versus `/usr/bin/az` — even though the `PATH` entry
appended to the child environment (override variable plus the fixed
default list) is identical in both runs.  This contradicts both the
claim and the source's own comment that "any path in the calling
program's Path environment is not used to execute Azure CLI". -/
theorem getTenantFromCLI_ambient_path_dependence :
    (⟨"/attacker:/usr/bin", "", "", "", ""⟩ : ProcEnv).AzureCLIPath =
      (⟨"/usr/bin", "", "", "", ""⟩ : ProcEnv).AzureCLIPath ∧
    (⟨"/attacker:/usr/bin", "", "", "", ""⟩ : ProcEnv).ProgramFiles =
      (⟨"/usr/bin", "", "", "", ""⟩ : ProcEnv).ProgramFiles ∧
    (⟨"/attacker:/usr/bin", "", "", "", ""⟩ : ProcEnv).ProgramFilesX86 =
      (⟨"/usr/bin", "", "", "", ""⟩ : ProcEnv).ProgramFilesX86 ∧
    (⟨"/attacker:/usr/bin", "", "", "", ""⟩ : ProcEnv).windir =
      (⟨"/usr/bin", "", "", "", ""⟩ : ProcEnv).windir ∧
    (⟨"/attacker:/usr/bin", "", "", "", ""⟩ : ProcEnv).PATH ≠
      (⟨"/usr/bin", "", "", "", ""⟩ : ProcEnv).PATH ∧
    (getTenantFromCLICommand "linux" ⟨"/attacker:/usr/bin", "", "", "", ""⟩
        ["/attacker/az", "/usr/bin/az"]).path = "/attacker/az" ∧
    (getTenantFromCLICommand "linux" ⟨"/usr/bin", "", "", "", ""⟩
        ["/attacker/az", "/usr/bin/az"]).path = "/usr/bin/az" ∧
    (getTenantFromCLICommand "linux" ⟨"/attacker:/usr/bin", "", "", "", ""⟩
        ["/attacker/az", "/usr/bin/az"]).path ≠
      (getTenantFromCLICommand "linux" ⟨"/usr/bin", "", "", "", ""⟩
        ["/attacker/az", "/usr/bin/az"]).path ∧
    (getTenantFromCLICommand "linux" ⟨"/attacker:/usr/bin", "", "", "", ""⟩
        ["/attacker/az", "/usr/bin/az"]).childPATH =
      (getTenantFromCLICommand "linux" ⟨"/usr/bin", "", "", "", ""⟩
        ["/attacker/az", "/usr/bin/az"]).childPATH ∧
    (getTenantFromCLICommand "linux" ⟨"/attacker:/usr/bin", "", "", "", ""⟩
        ["/attacker/az", "/usr/bin/az"]).childPATH =
      ":/bin:/sbin:/usr/bin:/usr/local/bin" := by
  decide

/-- Claim C10: once a first successful `GetGraphClient` call has
populated the cache, every later call — with any configuration,
environment or oracles — hits the cache and returns the stored client
(non-nil) together with a `nil` request adapter and no error; a caller
such as `listAdDirectoryAuditReports`, which passes the returned adapter
to the page-iterator constructor, therefore receives a `nil` adapter on
every call but the first. -/
theorem cachedGraphClient_nil_adapter (cfg1 : AzureADConfig) (env1 : Env)
    (rf1 : String → FileRead) (pc1 : String → Option String → ParseResult)
    (cache0 cache1 : Cache) (c1 : GraphServiceClient)
    (ad : Option GraphRequestAdapter)
    (hmiss : cacheGet cache0 "GetGraphClient" = none)
    (h1 : GetGraphClient cfg1 env1 rf1 pc1 cache0 = ((some c1, ad, none), cache1)) :
    ∀ (cfg2 : AzureADConfig) (env2 : Env) (rf2 : String → FileRead)
      (pc2 : String → Option String → ParseResult),
      GetGraphClient cfg2 env2 rf2 pc2 cache1 = ((some c1, none, none), cache1) := by
  intro cfg2 env2 rf2 pc2
  have hstore := getGraphClient_ok_stores cfg1 env1 rf1 pc1 cache0 cache1 c1 ad hmiss h1
  have hhit : cacheGet cache1 "GetGraphClient" = some (CacheValue.client c1) := by
    rw [hstore]; exact cacheGet_cacheSet_self ..
  exact getGraphClient_hit cfg2 env2 rf2 pc2 cache1 c1 hhit

/-- Claim C10 witness: a concrete first call (CLI credential path)
populates the cache; a second call with a different configuration returns
the same client with a `nil` adapter and no error. -/
theorem cachedGraphClient_nil_adapter_witness :
    cacheGet [] "GetGraphClient" = none ∧
    GetGraphClient ⟨some "", none, none, none, none, none, none, none⟩
        ⟨"", "", "", "", "", ""⟩ (fun _ => FileRead.err "no file")
        (fun _ _ => ParseResult.err "no parse") [] =
      ((some ⟨⟨some Credential.azureCLI⟩⟩, some ⟨some Credential.azureCLI⟩, none),
        [("GetGraphClient", CacheValue.client ⟨⟨some Credential.azureCLI⟩⟩)]) ∧
    GetGraphClient ⟨some "t2", some "c2", some "s2", none, none, none, none, none⟩
        ⟨"", "", "", "", "", ""⟩ (fun _ => FileRead.err "no file")
        (fun _ _ => ParseResult.err "no parse")
        [("GetGraphClient", CacheValue.client ⟨⟨some Credential.azureCLI⟩⟩)] =
      ((some ⟨⟨some Credential.azureCLI⟩⟩, none, none),
        [("GetGraphClient", CacheValue.client ⟨⟨some Credential.azureCLI⟩⟩)]) :=
  ⟨rfl, by decide,
    cachedGraphClient_nil_adapter
      ⟨some "", none, none, none, none, none, none, none⟩
      ⟨"", "", "", "", "", ""⟩ (fun _ => FileRead.err "no file")
      (fun _ _ => ParseResult.err "no parse") []
      [("GetGraphClient", CacheValue.client ⟨⟨some Credential.azureCLI⟩⟩)]
      ⟨⟨some Credential.azureCLI⟩⟩ (some ⟨some Credential.azureCLI⟩)
      rfl (by decide)
      ⟨some "t2", some "c2", some "s2", none, none, none, none, none⟩
      ⟨"", "", "", "", "", ""⟩ (fun _ => FileRead.err "no file")
      (fun _ _ => ParseResult.err "no parse")⟩

/-- Claim C1 counterexample: the `part_001` variant of `GetNewSession`
(whose cache lookup is commented out in the source) is not set-once.
First call: config with tenant `t1` stores a session with tenant `t1`
under the fixed key `"authMethod"`.  Second sequential call on the
resulting cache, with the config changed to tenant `t2`, re-runs
credential resolution and returns a session with tenant `t2` — not the
instance stored by the first call, and the config change did alter the
returned result. -/
theorem part001_getNewSession_not_set_once :
    sessionResultTenant
        (Part001.GetNewSession ⟨some "t1", some "c1", some "s1", none, none, none, none, none⟩
          ⟨"", "", "", "", "", ""⟩ (CliResult.ok "x") []).1 = some "t1" ∧
    cachedSessionTenantAt
        (Part001.GetNewSession ⟨some "t1", some "c1", some "s1", none, none, none, none, none⟩
          ⟨"", "", "", "", "", ""⟩ (CliResult.ok "x") []).2 "authMethod" = some "t1" ∧
    sessionResultTenant
        (Part001.GetNewSession ⟨some "t2", some "c2", some "s2", none, none, none, none, none⟩
          ⟨"", "", "", "", "", ""⟩ (CliResult.ok "x")
          (Part001.GetNewSession ⟨some "t1", some "c1", some "s1", none, none, none, none, none⟩
            ⟨"", "", "", "", "", ""⟩ (CliResult.ok "x") []).2).1 = some "t2" ∧
    (some "t2" : Option String) ≠ some "t1" := by
  decide

/-- Claim C1 amended: the set-once invariant holds for the cache-checking
get-or-create functions of `service.go`: after a first successful
`GetNewSession` (resp. `GetGraphClient`) on an empty slot, every later
sequential call — under any changed configuration, environment or
oracles — returns exactly the instance stored by the first call and
leaves the cache unchanged, without re-running credential resolution
(the result is independent of the second call's inputs).  The `part_001`
variant of `GetNewSession` is excluded: its cache lookup is commented
out, so it re-resolves on every call. -/
theorem sessionClientCache_set_once :
    (∀ (cfg1 cfg2 : AzureADConfig) (env1 env2 : Env) (cli1 cli2 : CliResult)
        (cache0 cache1 : Cache) (s1 : Session),
      cacheGet cache0 "GetNewSession" = none →
      GetNewSession cfg1 env1 cli1 cache0 = (SessionResult.ok s1, cache1) →
      GetNewSession cfg2 env2 cli2 cache1 = (SessionResult.ok s1, cache1)) ∧
    (∀ (cfg1 cfg2 : AzureADConfig) (env1 env2 : Env)
        (rf1 rf2 : String → FileRead)
        (pc1 pc2 : String → Option String → ParseResult)
        (cache0 cache1 : Cache) (c1 : GraphServiceClient)
        (ad : Option GraphRequestAdapter),
      cacheGet cache0 "GetGraphClient" = none →
      GetGraphClient cfg1 env1 rf1 pc1 cache0 = ((some c1, ad, none), cache1) →
      GetGraphClient cfg2 env2 rf2 pc2 cache1 = ((some c1, none, none), cache1)) := by
  constructor
  · intro cfg1 cfg2 env1 env2 cli1 cli2 cache0 cache1 s1 hmiss h1
    have hstore := getNewSession_ok_stores cfg1 env1 cli1 cache0 cache1 s1 hmiss h1
    have hhit : cacheGet cache1 "GetNewSession" = some (CacheValue.session s1) := by
      rw [hstore]; exact cacheGet_cacheSet_self ..
    exact getNewSession_hit cfg2 env2 cli2 cache1 s1 hhit
  · intro cfg1 cfg2 env1 env2 rf1 rf2 pc1 pc2 cache0 cache1 c1 ad hmiss h1
    have hstore := getGraphClient_ok_stores cfg1 env1 rf1 pc1 cache0 cache1 c1 ad hmiss h1
    have hhit : cacheGet cache1 "GetGraphClient" = some (CacheValue.client c1) := by
      rw [hstore]; exact cacheGet_cacheSet_self ..
    exact getGraphClient_hit cfg2 env2 rf2 pc2 cache1 c1 hhit

/-- Claim C1 amended witness: concrete first calls through the CLI path
populate both caches; second sequential calls with a different
configuration and failing oracles still return the stored session and the
stored client unchanged. -/
theorem sessionClientCache_set_once_witness :
    GetNewSession ⟨some "t2", some "c2", some "s2", none, none, none, none, none⟩
        ⟨"", "", "", "", "", ""⟩ (CliResult.err "cli unavailable")
        [("GetNewSession", CacheValue.session ⟨"T", ⟨{ EnableAzureCliToken := true }⟩⟩)] =
      (SessionResult.ok ⟨"T", ⟨{ EnableAzureCliToken := true }⟩⟩,
        [("GetNewSession", CacheValue.session ⟨"T", ⟨{ EnableAzureCliToken := true }⟩⟩)]) ∧
    GetGraphClient ⟨some "t2", some "c2", some "s2", none, none, none, none, none⟩
        ⟨"", "", "", "", "", ""⟩ (fun _ => FileRead.err "no file")
        (fun _ _ => ParseResult.err "no parse")
        [("GetGraphClient", CacheValue.client ⟨⟨some Credential.azureCLI⟩⟩)] =
      ((some ⟨⟨some Credential.azureCLI⟩⟩, none, none),
        [("GetGraphClient", CacheValue.client ⟨⟨some Credential.azureCLI⟩⟩)]) :=
  ⟨sessionClientCache_set_once.1
      ⟨some "", none, none, none, none, none, none, none⟩
      ⟨some "t2", some "c2", some "s2", none, none, none, none, none⟩
      ⟨"", "", "", "", "", ""⟩ ⟨"", "", "", "", "", ""⟩
      (CliResult.ok "T") (CliResult.err "cli unavailable") []
      [("GetNewSession", CacheValue.session ⟨"T", ⟨{ EnableAzureCliToken := true }⟩⟩)]
      ⟨"T", ⟨{ EnableAzureCliToken := true }⟩⟩ rfl (by decide),
    sessionClientCache_set_once.2
      ⟨some "", none, none, none, none, none, none, none⟩
      ⟨some "t2", some "c2", some "s2", none, none, none, none, none⟩
      ⟨"", "", "", "", "", ""⟩ ⟨"", "", "", "", "", ""⟩
      (fun _ => FileRead.err "no file") (fun _ => FileRead.err "no file")
      (fun _ _ => ParseResult.err "no parse") (fun _ _ => ParseResult.err "no parse")
      [] [("GetGraphClient", CacheValue.client ⟨⟨some Credential.azureCLI⟩⟩)]
      ⟨⟨some Credential.azureCLI⟩⟩ (some ⟨some Credential.azureCLI⟩)
      rfl (by decide)⟩
